import Mathlib

/-!
Verification of the bigmler dispatching layer.

This file gives a shallow embedding of the resume/logging mechanism of
`bigmler/dispatcher.py` and `bigmler/cluster/dispatcher.py` together with the
pre-flight validation logic of both `compute_output` functions, and proves or
refutes the specified properties about them.

The serialization of a command line (the `Command` / `StoredCommand` classes
live in `bigmler/command.py`, which is not part of the provided sources) is
modelled from the spec: each token is wrapped in shell-style double quotes with
backslash escaping, and the stored line is tokenized back with the same rules.
-/

namespace Bigmler

/-- Modelled from the spec: shell-style escaping of a single character inside a
double-quoted token.  A double quote or a backslash is preceded by a
backslash; every other character is kept verbatim. -/
def escapeChar (c : Char) : List Char :=
  if c = '"' ∨ c = '\\' then ['\\', c] else [c]

/-- Modelled from the spec: escapes every character of a token. -/
def escapeArg : List Char → List Char
  | [] => []
  | c :: cs => escapeChar c ++ escapeArg cs

/-- Modelled from the spec: a serialized token is its escaped body wrapped in
double quotes. -/
def quoteArg (cs : List Char) : List Char :=
  '"' :: (escapeArg cs ++ ['"'])

/-- Modelled from the spec: the serialized command line is the quoted tokens
joined by single spaces. -/
def serializeTokens : List (List Char) → List Char
  | [] => []
  | [t] => quoteArg t
  | t :: ts => quoteArg t ++ ' ' :: serializeTokens ts

theorem serializeTokens_cons2 (t t2 : List Char) (ts2 : List (List Char)) :
    serializeTokens (t :: t2 :: ts2) = quoteArg t ++ ' ' :: serializeTokens (t2 :: ts2) := rfl

/-- Modelled from the spec: reads one double-quoted token body.  The input
starts just after the opening quote; on success the token's characters and the
input remaining after the closing quote are returned. -/
def parseArg : List Char → Option (List Char × List Char)
  | [] => none
  | c :: rest =>
    if c = '\\' then
      match rest with
      | [] => none
      | d :: rest' => (parseArg rest').map (fun p => (d :: p.1, p.2))
    else if c = '"' then some ([], rest)
    else (parseArg rest).map (fun p => (c :: p.1, p.2))

theorem parseArg_cons (c : Char) (rest : List Char) :
    parseArg (c :: rest)
      = if c = '\\' then
          (match rest with
           | [] => none
           | d :: rest' => (parseArg rest').map (fun p => (d :: p.1, p.2)))
        else if c = '"' then some ([], rest)
        else (parseArg rest).map (fun p => (c :: p.1, p.2)) := by
  conv_lhs => unfold parseArg

/-- Modelled from the spec: tokenizes a stored command line back into the
sequence of tokens it was serialized from.  The recursion is bounded by a fuel
argument; since every parsed token consumes at least one character of input,
a fuel equal to the input length is always sufficient (see `parseArgs`). -/
def parseArgsFuel : Nat → List Char → Option (List (List Char))
  | _, [] => some []
  | 0, _ :: _ => none
  | fuel + 1, c :: rest =>
    if c = '"' then
      match parseArg rest with
      | none => none
      | some (t, r) =>
        match r with
        | [] => some [t]
        | d :: r' =>
          if d = ' ' then (parseArgsFuel fuel r').map (fun ts => t :: ts) else none
    else none

theorem parseArgsFuel_succ (fuel : Nat) (c : Char) (rest : List Char) :
    parseArgsFuel (fuel + 1) (c :: rest)
      = if c = '"' then
          (match parseArg rest with
           | none => none
           | some (t, r) =>
             match r with
             | [] => some [t]
             | d :: r' =>
               if d = ' ' then (parseArgsFuel fuel r').map (fun ts => t :: ts) else none)
        else none := by
  conv_lhs => unfold parseArgsFuel

/-- Modelled from the spec: the deserializer applied to a whole line, with the
always-sufficient fuel. -/
def parseArgs (cs : List Char) : Option (List (List Char)) :=
  parseArgsFuel cs.length cs

/-- Parsing one quoted token out of a serialized line recovers the token and
the remainder of the line. -/
theorem parseArg_escape (t rest : List Char) :
    parseArg (escapeArg t ++ '"' :: rest) = some (t, rest) := by
  induction t with
  | nil =>
    have h1 : ('"' : Char) ≠ '\\' := by decide
    simp [escapeArg, parseArg_cons, h1]
  | cons c cs ih =>
    by_cases h : c = '"' ∨ c = '\\'
    · have hesc : escapeChar c = ['\\', c] := by simp [escapeChar, h]
      simp only [escapeArg, hesc, List.cons_append, List.append_assoc]
      rw [parseArg_cons]
      simp [ih]
    · push_neg at h
      obtain ⟨h1, h2⟩ := h
      have hesc : escapeChar c = [c] := by simp [escapeChar, h1, h2]
      simp only [escapeArg, hesc, List.cons_append]
      rw [parseArg_cons]
      simp [h1, h2, ih]

theorem quoteArg_length (t : List Char) :
    (quoteArg t).length = (escapeArg t).length + 2 := by
  simp [quoteArg]

/-- With enough fuel, tokenizing a serialized token list gives back exactly
the original list. -/
theorem parseArgsFuel_serialize (argv : List (List Char)) :
    ∀ fuel : Nat, (serializeTokens argv).length ≤ fuel →
      parseArgsFuel fuel (serializeTokens argv) = some argv := by
  induction argv with
  | nil =>
    intro fuel _
    cases fuel <;> rfl
  | cons t ts ih =>
    cases ts with
    | nil =>
      intro fuel hle
      obtain ⟨f, rfl⟩ : ∃ f, fuel = f + 1 := by
        cases fuel with
        | zero =>
          exfalso
          simp only [serializeTokens, quoteArg, List.length_cons,
            Nat.le_zero] at hle
          omega
        | succ f => exact ⟨f, rfl⟩
      show parseArgsFuel (f + 1) (serializeTokens [t]) = some [t]
      simp only [serializeTokens, quoteArg]
      rw [parseArgsFuel_succ, if_pos rfl]
      have hq : parseArg (escapeArg t ++ ['"']) = some (t, []) :=
        parseArg_escape t []
      rw [hq]
    | cons t2 ts2 =>
      intro fuel hle
      rw [serializeTokens_cons2] at hle ⊢
      obtain ⟨f, rfl⟩ : ∃ f, fuel = f + 1 := by
        cases fuel with
        | zero =>
          exfalso
          simp only [quoteArg, List.cons_append, List.length_cons,
            Nat.le_zero] at hle
          omega
        | succ f => exact ⟨f, rfl⟩
      have hS : (serializeTokens (t2 :: ts2)).length ≤ f := by
        rw [List.length_append, quoteArg_length] at hle
        simp only [List.length_cons] at hle
        omega
      simp only [quoteArg, List.cons_append, List.append_assoc,
        List.singleton_append, List.nil_append]
      rw [parseArgsFuel_succ, if_pos rfl]
      rw [parseArg_escape t (' ' :: serializeTokens (t2 :: ts2))]
      simp only [if_pos rfl]
      rw [ih f hS]
      rfl

/-- Tokenizing a serialized token list gives back exactly the original list. -/
theorem parseArgs_serializeTokens (argv : List (List Char)) :
    parseArgs (serializeTokens argv) = some argv :=
  parseArgsFuel_serialize argv _ le_rfl

/-- Modelled from the spec: serializes an argument vector into the single
shell-escaped line appended to the command log (bigmler/command.py is not in
the provided sources; spec sections 4.1 and 8). -/
def serializeCommand (argv : List String) : String :=
  String.mk (serializeTokens (argv.map String.data))

/-- Modelled from the spec: restores the argument vector from a stored command
log line (spec sections 4.3 and 8). -/
def deserializeCommand (s : String) : Option (List String) :=
  (parseArgs s.data).map (fun ts => ts.map String.mk)

theorem string_mk_data (s : String) : String.mk s.data = s := by
  cases s; rfl

/-- One invocation of the dispatcher: the raw argument vector, and the output
directory the run resolves (the result of `u.check_dir` on the predictions
path, dispatcher.py line 167).  The directory is carried explicitly because
`bigmler/utils.py` is not part of the provided sources. -/
structure Invocation where
  argv : List String
  dir : String
deriving DecidableEq, Repr

/-- A line of a log file, together with the invocation that wrote it.  The
`run` field is ghost provenance used only to state which logical run a line
refers to; the on-disk content is just `text`. -/
structure LogEntry where
  text : String
  run : Invocation
deriving DecidableEq, Repr

/-- The log files touched by `main_dispatcher`: the command log `.bigmler`,
the directory-stack log `.bigmler_dir_stack`, the new-directories log
`u.NEW_DIRS_LOG` (a constant of `bigmler/utils.py`), and the per-run session
log `bigmler_sessions` inside the output directory (dispatcher.py lines
47-50). -/
structure FileSystem where
  commandLog : List LogEntry
  dirsLog : List LogEntry
  newDirsLog : List LogEntry
  sessionLog : List String
deriving DecidableEq, Repr

/-- Names of the four log files of the model. -/
inductive LogName where
  | command
  | dirs
  | newDirs
  | session
deriving DecidableEq, Repr

/-- LOG_FILES = [COMMAND_LOG, DIRS_LOG, u.NEW_DIRS_LOG] (dispatcher.py line
50).  The per-run session log (SESSIONS_LOG, a separate constant used only
through os.path.join with the output directory) is not in this list. -/
def LOG_FILES : List LogName := [LogName.command, LogName.dirs, LogName.newDirs]

/-- Truncating one log file to empty, as open(log_file, 'w', 0).close() does
(dispatcher.py line 105). -/
def truncateLog (f : LogName) (fs : FileSystem) : FileSystem :=
  match f with
  | LogName.command => { fs with commandLog := [] }
  | LogName.dirs => { fs with dirsLog := [] }
  | LogName.newDirs => { fs with newDirsLog := [] }
  | LogName.session => { fs with sessionLog := [] }

/-- clear_log_files, dispatcher.py lines 99-107: truncates every file in the
given list. -/
def clear_log_files (files : List LogName) (fs : FileSystem) : FileSystem :=
  files.foldl (fun acc f => truncateLog f acc) fs

/-- Membership test of a literal flag in the raw argument list, as
`"--clear-logs" in args` (dispatcher.py line 132). -/
def hasFlag (argv : List String) (flag : String) : Bool :=
  argv.contains flag

/-- command_handling, dispatcher.py lines 81-96: appends the serialized
command line to the command log unless the invocation is a resume
(`Command.resume`, i.e. `--resume` present in the argument list). -/
def command_handling (inv : Invocation) (commandLog : List LogEntry) : List LogEntry :=
  if hasFlag inv.argv "--resume" then commandLog
  else commandLog ++ [⟨serializeCommand inv.argv, inv⟩]

/-- The 80-character separator written to the session log at the end of each
run (dispatcher.py line 194). -/
def sessionSeparator : String :=
  String.mk (List.replicate 80 '_')

/-- One invocation of main_dispatcher, dispatcher.py lines 126-194, restricted
to its effect on the log files and following the successful control flow:
first the optional --clear-logs truncation (lines 131-133), then
command_handling (line 135), then — for a non-resumed run — the append of the
output directory to the directory-stack log (lines 180-181) and of the command
to the session log (line 169), and finally the session separator (line 194). -/
def main_dispatcher_step (inv : Invocation) (fs : FileSystem) : FileSystem :=
  let fs1 := if hasFlag inv.argv "--clear-logs" then clear_log_files LOG_FILES fs else fs
  let fs2 := { fs1 with commandLog := command_handling inv fs1.commandLog }
  let fs3 :=
    if hasFlag inv.argv "--resume" then fs2
    else { fs2 with
            dirsLog := fs2.dirsLog ++ [⟨inv.dir, inv⟩],
            sessionLog := fs2.sessionLog ++ [serializeCommand inv.argv] }
  { fs3 with sessionLog := fs3.sessionLog ++ [sessionSeparator] }

/-- A sequence of dispatcher invocations, in order. -/
def run_sequence (invs : List Invocation) (fs : FileSystem) : FileSystem :=
  invs.foldl (fun acc inv => main_dispatcher_step inv acc) fs

/-- Modelled from the spec: StoredCommand (bigmler/command.py, not in the
provided sources) reads the last line of the command log and the last line of
the directory-stack log (spec section 4.3, dispatcher.py line 146). -/
def load_for_resume (fs : FileSystem) : Option LogEntry × Option LogEntry :=
  (fs.commandLog.getLast?, fs.dirsLog.getLast?)

/-- The two cross-run logs list lines written by the same runs in the same
order (positional correlation of the spec, section 3). -/
def logs_correlated (fs : FileSystem) : Prop :=
  fs.commandLog.map LogEntry.run = fs.dirsLog.map LogEntry.run

theorem step_commandLog_plain (inv : Invocation) (fs : FileSystem)
    (hr : hasFlag inv.argv "--resume" = false)
    (hc : hasFlag inv.argv "--clear-logs" = false) :
    (main_dispatcher_step inv fs).commandLog
      = fs.commandLog ++ [⟨serializeCommand inv.argv, inv⟩] := by
  simp [main_dispatcher_step, command_handling, hr, hc]

theorem step_commandLog_resume (inv : Invocation) (fs : FileSystem)
    (hr : hasFlag inv.argv "--resume" = true)
    (hc : hasFlag inv.argv "--clear-logs" = false) :
    (main_dispatcher_step inv fs).commandLog = fs.commandLog := by
  simp [main_dispatcher_step, command_handling, hr, hc]

theorem step_dirsLog_plain (inv : Invocation) (fs : FileSystem)
    (hr : hasFlag inv.argv "--resume" = false)
    (hc : hasFlag inv.argv "--clear-logs" = false) :
    (main_dispatcher_step inv fs).dirsLog = fs.dirsLog ++ [⟨inv.dir, inv⟩] := by
  simp [main_dispatcher_step, command_handling, hr, hc]

theorem step_preserves_correlated (inv : Invocation) (fs : FileSystem)
    (h : logs_correlated fs) : logs_correlated (main_dispatcher_step inv fs) := by
  unfold logs_correlated at h ⊢
  cases hc : hasFlag inv.argv "--clear-logs" <;>
    cases hr : hasFlag inv.argv "--resume" <;>
      simp [main_dispatcher_step, command_handling, clear_log_files, LOG_FILES,
        truncateLog, hc, hr, h]

theorem run_sequence_preserves_correlated (invs : List Invocation) (fs : FileSystem)
    (h : logs_correlated fs) : logs_correlated (run_sequence invs fs) := by
  induction invs generalizing fs with
  | nil => exact h
  | cons inv invs ih =>
    exact ih (main_dispatcher_step inv fs) (step_preserves_correlated inv fs h)

theorem run_sequence_commandLog_length (invs : List Invocation) (fs : FileSystem)
    (h : ∀ inv ∈ invs, hasFlag inv.argv "--clear-logs" = false) :
    (run_sequence invs fs).commandLog.length
      = fs.commandLog.length
        + (invs.filter (fun inv => !hasFlag inv.argv "--resume")).length := by
  induction invs generalizing fs with
  | nil => simp [run_sequence]
  | cons inv invs ih =>
    have hc : hasFlag inv.argv "--clear-logs" = false := h inv (by simp)
    have hrest : ∀ i ∈ invs, hasFlag i.argv "--clear-logs" = false :=
      fun i hi => h i (by simp [hi])
    have hstep : run_sequence (inv :: invs) fs
        = run_sequence invs (main_dispatcher_step inv fs) := rfl
    rw [hstep, ih (main_dispatcher_step inv fs) hrest]
    cases hr : hasFlag inv.argv "--resume" with
    | false =>
      rw [step_commandLog_plain inv fs hr hc]
      simp [hr]
      omega
    | true =>
      rw [step_commandLog_resume inv fs hr hc]
      simp [hr]

theorem listGetLastMap {α β : Type} (f : α → β) (l : List α) :
    (l.map f).getLast? = l.getLast?.map f := by
  induction l with
  | nil => rfl
  | cons a l ih =>
    cases l with
    | nil => rfl
    | cons b l => simpa using ih

/-- A plain training invocation used as a concrete sample run. -/
def invTrain : Invocation :=
  ⟨["--train", "iris.csv"], "run1"⟩

/-- A resume invocation used as a concrete sample run. -/
def invResume : Invocation :=
  ⟨["--resume"], "run1"⟩

/-- The state with all four log files empty. -/
def fsEmpty : FileSystem :=
  ⟨[], [], [], []⟩

/-- Claim C4: for every argument vector of arbitrary tokens (including tokens
with embedded spaces or quotes), deserializing the serialized command line
yields the vector back: deserialize(serialize(argv)) = argv, so a resumed run
reconstructs the original argument list byte-identically. -/
theorem serialize_deserialize_round_trip (argv : List String) :
    deserializeCommand (serializeCommand argv) = some argv := by
  unfold deserializeCommand serializeCommand
  have hdata : (String.mk (serializeTokens (argv.map String.data))).data
      = serializeTokens (argv.map String.data) := rfl
  rw [hdata, parseArgs_serializeTokens]
  simp only [Option.map_some']
  rw [List.map_map]
  have hcomp : String.mk ∘ String.data = id := funext string_mk_data
  rw [hcomp, List.map_id]

/-- Claim C2: a non-resumed invocation (without --clear-logs) appends exactly
one serialized command line to the command log; an invocation with --resume
appends nothing; and after any sequence of invocations without --clear-logs
the command log has grown by exactly the number of non-resumed invocations
(so N non-resumed runs starting from an empty log leave exactly N lines). -/
theorem command_log_append_only :
    (∀ (inv : Invocation) (fs : FileSystem),
       hasFlag inv.argv "--resume" = false → hasFlag inv.argv "--clear-logs" = false →
       (main_dispatcher_step inv fs).commandLog
         = fs.commandLog ++ [⟨serializeCommand inv.argv, inv⟩])
    ∧ (∀ (inv : Invocation) (fs : FileSystem),
       hasFlag inv.argv "--resume" = true → hasFlag inv.argv "--clear-logs" = false →
       (main_dispatcher_step inv fs).commandLog = fs.commandLog)
    ∧ (∀ (invs : List Invocation) (fs : FileSystem),
       (∀ inv ∈ invs, hasFlag inv.argv "--clear-logs" = false) →
       (run_sequence invs fs).commandLog.length
         = fs.commandLog.length
           + (invs.filter (fun inv => !hasFlag inv.argv "--resume")).length) :=
  ⟨step_commandLog_plain, step_commandLog_resume, run_sequence_commandLog_length⟩

/-- Witness for C2 at a concrete two-run sequence: one plain run followed by
one resumed run leaves exactly one command-log line. -/
theorem command_log_append_only_witness :
    (main_dispatcher_step invTrain fsEmpty).commandLog
        = fsEmpty.commandLog ++ [⟨serializeCommand invTrain.argv, invTrain⟩]
    ∧ (main_dispatcher_step invResume fsEmpty).commandLog = fsEmpty.commandLog
    ∧ (run_sequence [invTrain, invResume] fsEmpty).commandLog.length
        = fsEmpty.commandLog.length
          + ([invTrain, invResume].filter
              (fun inv => !hasFlag inv.argv "--resume")).length :=
  ⟨command_log_append_only.1 invTrain fsEmpty (by decide) (by decide),
   command_log_append_only.2.1 invResume fsEmpty (by decide) (by decide),
   command_log_append_only.2.2 [invTrain, invResume] fsEmpty (by decide)⟩

/-- Claim C3: every run that appends a line to the command log also appends
exactly one directory line, with the same originating run, in the same order;
starting from positionally correlated logs any invocation sequence preserves
the correlation, and the resume loader reads the last line of each log, which
then refer to the same logical run. -/
theorem command_dir_logs_positional :
    (∀ (inv : Invocation) (fs : FileSystem),
       hasFlag inv.argv "--resume" = false → hasFlag inv.argv "--clear-logs" = false →
       (main_dispatcher_step inv fs).commandLog
           = fs.commandLog ++ [⟨serializeCommand inv.argv, inv⟩]
         ∧ (main_dispatcher_step inv fs).dirsLog = fs.dirsLog ++ [⟨inv.dir, inv⟩])
    ∧ (∀ (invs : List Invocation) (fs : FileSystem),
       logs_correlated fs → logs_correlated (run_sequence invs fs))
    ∧ (∀ fs : FileSystem,
       logs_correlated fs →
       ((load_for_resume fs).1).map LogEntry.run
         = ((load_for_resume fs).2).map LogEntry.run) := by
  refine ⟨fun inv fs hr hc => ⟨step_commandLog_plain inv fs hr hc,
    step_dirsLog_plain inv fs hr hc⟩,
    run_sequence_preserves_correlated, fun fs h => ?_⟩
  unfold load_for_resume
  rw [← listGetLastMap, ← listGetLastMap, h]

/-- Witness for C3 at a concrete sequence: both logs receive the same run in
the same position, and the resume loader's two last lines agree on the run. -/
theorem command_dir_logs_positional_witness :
    ((main_dispatcher_step invTrain fsEmpty).commandLog
        = fsEmpty.commandLog ++ [⟨serializeCommand invTrain.argv, invTrain⟩]
      ∧ (main_dispatcher_step invTrain fsEmpty).dirsLog
        = fsEmpty.dirsLog ++ [⟨invTrain.dir, invTrain⟩])
    ∧ logs_correlated (run_sequence [invTrain, invResume] fsEmpty)
    ∧ ((load_for_resume (run_sequence [invTrain, invResume] fsEmpty)).1).map LogEntry.run
        = ((load_for_resume (run_sequence [invTrain, invResume] fsEmpty)).2).map
            LogEntry.run :=
  ⟨command_dir_logs_positional.1 invTrain fsEmpty (by decide) (by decide),
   command_dir_logs_positional.2.1 [invTrain, invResume] fsEmpty rfl,
   command_dir_logs_positional.2.2 (run_sequence [invTrain, invResume] fsEmpty)
     (command_dir_logs_positional.2.1 [invTrain, invResume] fsEmpty rfl)⟩

/-- A --clear-logs invocation used as a concrete sample run. -/
def invClear : Invocation :=
  ⟨["--clear-logs", "--train", "iris.csv"], "run2"⟩

/-- A state in which all four log files already have content from a prior
run. -/
def fsPrior : FileSystem :=
  ⟨[⟨"cmd", invTrain⟩], [⟨"run1", invTrain⟩], [⟨"nd", invTrain⟩],
   ["old session line"]⟩

/-- Counterexample to claim C5: the claim says --clear-logs truncates the
command log, the directory-stack log and the session log.  LOG_FILES
(dispatcher.py line 50) contains the command log, the directory-stack log and
u.NEW_DIRS_LOG — not the per-run session log — so after a --clear-logs
invocation the session log still starts with its pre-existing line, which
would be impossible had it been truncated before the run's own appends. -/
theorem clear_logs_leaves_session_log :
    (main_dispatcher_step invClear fsPrior).sessionLog.head?
      = some "old session line" := by decide

/-- Amended claim C5: an invocation with --clear-logs truncates the command
log, the directory-stack log and the new-directories log to empty before any
log file is read (so after a non-resumed clearing run each of the first two
holds exactly the current run's single line and the third is empty), while
the per-run session log is not cleared: its prior contents survive. -/
theorem clear_logs_truncates (inv : Invocation) (fs : FileSystem)
    (hc : hasFlag inv.argv "--clear-logs" = true)
    (hr : hasFlag inv.argv "--resume" = false) :
    (main_dispatcher_step inv fs).commandLog = [⟨serializeCommand inv.argv, inv⟩]
    ∧ (main_dispatcher_step inv fs).dirsLog = [⟨inv.dir, inv⟩]
    ∧ (main_dispatcher_step inv fs).newDirsLog = []
    ∧ (main_dispatcher_step inv fs).sessionLog
        = fs.sessionLog ++ [serializeCommand inv.argv, sessionSeparator] := by
  simp [main_dispatcher_step, command_handling, clear_log_files, LOG_FILES,
    truncateLog, hc, hr]

/-- Witness for the amended C5 at the concrete clearing run. -/
theorem clear_logs_truncates_witness :
    (main_dispatcher_step invClear fsPrior).commandLog
        = [⟨serializeCommand invClear.argv, invClear⟩]
    ∧ (main_dispatcher_step invClear fsPrior).dirsLog = [⟨invClear.dir, invClear⟩]
    ∧ (main_dispatcher_step invClear fsPrior).newDirsLog = []
    ∧ (main_dispatcher_step invClear fsPrior).sessionLog
        = fsPrior.sessionLog ++ [serializeCommand invClear.argv, sessionSeparator] :=
  clear_logs_truncates invClear fsPrior (by decide) (by decide)

/-- The debug flag a resumed run effectively gets, dispatcher.py lines 141-147
and 183-185: the resuming invocation's own --debug is saved (line 144), the
stored command line is restored byte-identically and re-parsed (so the parsed
debug flag is the original run's one), and then `if resume and debug:
command_args.debug = True` re-applies the current --debug on top.  Nothing
ever clears the restored flag. -/
def resume_effective_debug (storedArgv currentArgv : List String) : Bool :=
  let debug := hasFlag currentArgv "--debug"
  let restoredDebug := hasFlag storedArgv "--debug"
  if debug then true else restoredDebug

/-- Counterexample to claim C7: the claim says the effective debug setting of
a restored run is true iff the resuming invocation itself passed --debug.
For a recorded run that passed --debug and a resume that did not, the
effective debug is still true, because the restored argument list contains
the original --debug and the dispatcher never clears it. -/
theorem resume_debug_persists :
    resume_effective_debug ["--train", "iris.csv", "--debug"] ["--resume"] = true
    ∧ hasFlag ["--resume"] "--debug" = false := by decide

/-- Amended claim C7: the effective debug setting of a restored run is true
iff the original recorded run passed --debug or the resuming invocation
passed --debug; a --debug passed to the resume is re-applied on top of the
restored arguments, but the original run's --debug persists through the
byte-identical restoration and is never cleared. -/
theorem resume_debug_is_or (storedArgv currentArgv : List String) :
    resume_effective_debug storedArgv currentArgv
      = (hasFlag storedArgv "--debug" || hasFlag currentArgv "--debug") := by
  unfold resume_effective_debug
  cases hcur : hasFlag currentArgv "--debug" <;> simp [hcur]

/-- The parsed command-line options read by the two compute_output functions.
Optional string-valued options are `Option String` (Python `None`); boolean
flags are `Bool`; `max_categories` is a non-negative count; the
cross-validation rate is modelled as a rational number (only its comparison
with zero is ever used by the dispatcher). -/
structure Args where
  description_ : String := ""
  black_box : Bool := false
  white_box : Bool := false
  public_dataset : Bool := false
  public_cluster : Bool := false
  max_categories : Nat := 0
  objective_field : Option String := none
  new_fields : Option String := none
  dataset : Option String := none
  evaluate : Bool := false
  cross_validation_rate : Rat := 0
  test_set : Option String := none
  test_source : Option String := none
  test_dataset : Option String := none
  test_stdin : Bool := false
  test_datasets : Option String := none
  training_set : Option String := none
  source : Option String := none
  datasets : Option String := none
  train_stdin : Bool := false
  predictions : Option String := none
  output_dir : Option String := none
  max_parallel_clusters : Nat := 0
deriving DecidableEq, Repr

/-- Python truthiness of an optional string option: None and the empty string
are falsy. -/
def pyTruthy : Option String → Bool
  | none => false
  | some s => s != ""

/-- has_test, dispatcher.py lines 110-115: some kind of test data is given. -/
def has_test (args : Args) : Bool :=
  pyTruthy args.test_set || pyTruthy args.test_source || pyTruthy args.test_dataset
    || args.test_stdin || pyTruthy args.test_datasets

/-- has_train, dispatcher.py lines 118-123: some kind of train data is given. -/
def has_train (args : Args) : Bool :=
  pyTruthy args.training_set || pyTruthy args.source || pyTruthy args.dataset
    || pyTruthy args.datasets || args.train_stdin

/-- The guard of the prediction stage, dispatcher.py line 428: `if models and
has_test(args) and not args.evaluate`.  Whether models exist is the outcome of
the remote models_processing call, passed in as `modelsPresent`. -/
def runs_prediction (modelsPresent : Bool) (args : Args) : Bool :=
  modelsPresent && has_test args && !args.evaluate

/-- The guard of the evaluation stage, dispatcher.py line 516: `if
args.evaluate`. -/
def runs_evaluation (args : Args) : Bool :=
  args.evaluate

/-- The guard of the cross-validation stage, dispatcher.py line 556: `if
args.cross_validation_rate > 0`. -/
def runs_cross_validation (args : Args) : Bool :=
  decide (0 < args.cross_validation_rate)

/-- The pipeline stages of compute_output, dispatcher.py lines 267-560, as the
ordered list of collaborator calls issued after the validation checks pass:
source_processing (line 267), dataset_processing (line 281), models_processing
(line 353) always run; then at most the guarded terminal stages.  Stages that
need no remote call for the claims under study are elided. -/
def main_pipeline_calls (modelsPresent : Bool) (args : Args) : List String :=
  ["source_processing", "dataset_processing", "models_processing"]
    ++ (if runs_prediction modelsPresent args then ["predict"] else [])
    ++ (if runs_evaluation args then ["evaluate"] else [])
    ++ (if runs_cross_validation args then ["cross_validate"] else [])

/-- compute_output of bigmler/dispatcher.py restricted to its pre-flight
validation (lines 219-235) and the list of pipeline calls it then issues: a
missing description with a publish flag, a positive max_categories without an
objective field, or new_fields without a dataset id each terminate the process
(sys.exit with a message, hence a non-zero status) before any remote call. -/
def compute_output (modelsPresent : Bool) (args : Args) :
    Except String Unit × List String :=
  if args.description_ == ""
      && (args.black_box || args.white_box || args.public_dataset) then
    (Except.error "You should provide a description to publish.", [])
  else if decide (0 < args.max_categories) && args.objective_field.isNone then
    (Except.error "When --max-categories is used, you must also provide the --objective field name or column number", [])
  else if pyTruthy args.new_fields && !pyTruthy args.dataset then
    (Except.error "To use --new-fields you must also provide a dataset id to generate the new dataset from it.", [])
  else
    (Except.ok (), main_pipeline_calls modelsPresent args)

/-- The unconditional settings of the cluster compute_output,
cluster/dispatcher.py lines 131-134: only one cluster is generated at present
and clusters cannot be published yet, so before anything else the effective
arguments get max_parallel_clusters = 1 and public_cluster = False. -/
def cluster_args_setup (args : Args) : Args :=
  { args with max_parallel_clusters := 1, public_cluster := false }

/-- The pipeline stages of the cluster compute_output, cluster/dispatcher.py
lines 160-250: get_source_info (line 160), get_dataset_info (line 163),
clusters_processing (line 176) always run, then the centroid stage when test
data is given.  Later optional stages are elided. -/
def cluster_pipeline_calls (args : Args) : List String :=
  ["get_source_info", "get_dataset_info", "clusters_processing"]
    ++ (if has_test args then ["centroid"] else [])

/-- compute_output of bigmler/cluster/dispatcher.py restricted to its argument
overrides (lines 131-134), its pre-flight validation (lines 136-146) and the
list of pipeline calls it then issues. -/
def cluster_compute_output (args : Args) : Except String Unit × List String :=
  let args := cluster_args_setup args
  if args.description_ == "" && (args.public_cluster || args.public_dataset) then
    (Except.error "You should provide a description to publish.", [])
  else if pyTruthy args.new_fields && !pyTruthy args.dataset then
    (Except.error "To use --new-fields you must also provide a dataset id to generate the new dataset from it.", [])
  else
    (Except.ok (), cluster_pipeline_calls args)

/-- A cluster invocation asking for --public-cluster with no --description. -/
def argsPublicCluster : Args :=
  { public_cluster := true }

/-- Counterexample to claim C1: the claim says that --public-cluster without
--description terminates the process with a non-zero exit before any remote
call.  In the code the override public_cluster = False (cluster/dispatcher.py
line 134) runs before the description check (lines 138-140), so the check
cannot fire for clusters: the run succeeds and issues its pipeline calls. -/
theorem public_cluster_missing_description_no_exit :
    cluster_compute_output argsPublicCluster
      = (Except.ok (), ["get_source_info", "get_dataset_info",
          "clusters_processing"]) := rfl

/-- Amended claim C1: invoking the cluster compute_output with
--public-cluster set and no --description does not terminate: public_cluster
is silently forced to False before the description check, so (absent
--public-dataset and absent a --new-fields misuse) the run proceeds and the
pipeline calls are issued; the description requirement can only fire for
--public-dataset. -/
theorem public_cluster_silently_disabled (args : Args)
    (hpd : args.public_dataset = false)
    (hnf : pyTruthy args.new_fields = false) :
    (cluster_compute_output args).1 = Except.ok ()
    ∧ (cluster_compute_output args).2 ≠ [] := by
  unfold cluster_compute_output cluster_args_setup
  simp [hpd, hnf, cluster_pipeline_calls]

/-- Witness for the amended C1 at the concrete --public-cluster run. -/
theorem public_cluster_silently_disabled_witness :
    (cluster_compute_output argsPublicCluster).1 = Except.ok ()
    ∧ (cluster_compute_output argsPublicCluster).2 ≠ [] :=
  public_cluster_silently_disabled argsPublicCluster rfl rfl

/-- Claim C10: whatever the user-supplied flags, the cluster compute_output
forces max_parallel_clusters = 1 and public_cluster = False before any
validation check or remote call (the overrides at cluster/dispatcher.py lines
131-134 precede both checks and every collaborator call), so the whole
computation is invariant under the user-requested values of the two fields. -/
theorem cluster_forces_single_private (args : Args) :
    (cluster_args_setup args).max_parallel_clusters = 1
    ∧ (cluster_args_setup args).public_cluster = false
    ∧ ∀ (b : Bool) (n : Nat),
        cluster_compute_output
            { args with public_cluster := b, max_parallel_clusters := n }
          = cluster_compute_output args :=
  ⟨rfl, rfl, fun _ _ => rfl⟩

/-- A run using --max-categories without an objective field. -/
def argsMaxCat : Args :=
  { max_categories := 3 }

/-- A run using --new-fields without a dataset id. -/
def argsNewFields : Args :=
  { new_fields := some "gen.json" }

/-- Claim C6: compute_output with max_categories > 0 and no objective field,
or with new_fields and no dataset id, exits with a non-zero status (sys.exit
with a message) before any remote API call and before any pipeline stage runs
— the call list is empty.  The same holds for the cluster compute_output's
new-fields check. -/
theorem validation_fatal_before_api :
    (∀ (modelsPresent : Bool) (args : Args),
       (0 < args.max_categories ∧ args.objective_field = none)
         ∨ (pyTruthy args.new_fields = true ∧ pyTruthy args.dataset = false) →
       ∃ msg, compute_output modelsPresent args = (Except.error msg, []))
    ∧ (∀ args : Args,
       pyTruthy args.new_fields = true → pyTruthy args.dataset = false →
       ∃ msg, cluster_compute_output args = (Except.error msg, [])) := by
  constructor
  · intro modelsPresent args h
    unfold compute_output
    split
    · exact ⟨_, rfl⟩
    · split
      · exact ⟨_, rfl⟩
      · split
        · exact ⟨_, rfl⟩
        · rename_i h1 h2 h3
          exfalso
          rcases h with ⟨hmc, hobj⟩ | ⟨hnf, hds⟩
          · exact h2 (by
              simp only [hobj, Option.isNone_none, Bool.and_true,
                decide_eq_true_eq]
              exact hmc)
          · exact h3 (by simp [hnf, hds])
  · intro args hnf hds
    unfold cluster_compute_output cluster_args_setup
    dsimp only
    split
    · exact ⟨_, rfl⟩
    · split
      · exact ⟨_, rfl⟩
      · rename_i h1 h2
        exfalso
        exact h2 (by simp [hnf, hds])

/-- Witness for C6 at the two concrete invalid runs. -/
theorem validation_fatal_before_api_witness :
    (∃ msg, compute_output false argsMaxCat = (Except.error msg, []))
    ∧ (∃ msg, cluster_compute_output argsNewFields = (Except.error msg, [])) :=
  ⟨validation_fatal_before_api.1 false argsMaxCat (Or.inl ⟨by decide, rfl⟩),
   validation_fatal_before_api.2 argsNewFields (by decide) (by decide)⟩

/-- How many of the three terminal stages execute in one compute_output run. -/
def terminal_action_count (modelsPresent : Bool) (args : Args) : Nat :=
  (if runs_prediction modelsPresent args then 1 else 0)
    + (if runs_evaluation args then 1 else 0)
    + (if runs_cross_validation args then 1 else 0)

/-- A run with --evaluate and a positive cross-validation rate. -/
def argsEvalCV : Args :=
  { evaluate := true, cross_validation_rate := 1 }

/-- Counterexample to claim C8: the claim says at most one of prediction,
evaluation and cross-validation executes per run.  Cross-validation is
guarded only by cross_validation_rate > 0 (dispatcher.py line 556),
independently of args.evaluate, so a run with --evaluate and a positive
cross-validation rate executes both evaluation and cross-validation. -/
theorem evaluation_and_cross_validation_both_run :
    terminal_action_count false argsEvalCV = 2
    ∧ runs_evaluation argsEvalCV = true
    ∧ runs_cross_validation argsEvalCV = true := by decide

/-- Amended claim C8: prediction and evaluation are mutually exclusive (the
prediction guard, dispatcher.py line 428, requires `not args.evaluate` while
the evaluation guard, line 516, requires `args.evaluate`), but
cross-validation runs whenever cross_validation_rate > 0, possibly in the
same run as either of them; hence at most two of the three terminal stages
execute per run. -/
theorem prediction_evaluation_mutually_exclusive (modelsPresent : Bool)
    (args : Args) :
    (runs_prediction modelsPresent args && runs_evaluation args) = false
    ∧ terminal_action_count modelsPresent args ≤ 2 := by
  have key : (runs_prediction modelsPresent args && runs_evaluation args)
      = false := by
    unfold runs_prediction runs_evaluation
    cases he : args.evaluate <;> simp [he]
  refine ⟨key, ?_⟩
  unfold terminal_action_count
  cases hp : runs_prediction modelsPresent args <;>
    cases hev : runs_evaluation args <;>
      cases hcv : runs_cross_validation args <;>
        simp_all

/-- The whitespace characters stripped by Python's str.strip. -/
def isSpaceChar (c : Char) : Bool :=
  c == ' ' || c == '\t' || c == '\n' || c == '\r'

/-- Python str.strip: removes leading and trailing whitespace. -/
def pyStrip (s : String) : String :=
  String.mk (((s.data.dropWhile isSpaceChar).reverse.dropWhile isSpaceChar).reverse)

/-- os.path.dirname for the paths the dispatcher manipulates: everything up to
the last slash, with trailing slashes of the head stripped unless the head is
all slashes; the empty string when the path has no slash. -/
def dirname (s : String) : String :=
  let headRev := s.data.reverse.dropWhile (fun c => c != '/')
  if headRev.all (fun c => c == '/') then String.mk headRev.reverse
  else String.mk ((headRev.dropWhile (fun c => c == '/')).reverse)

/-- os.path.join for a relative second component, as used by the dispatcher:
the empty head gives the tail unchanged, a head ending in a slash is
concatenated directly, otherwise a slash separates the two. -/
def path_join (a b : String) : String :=
  if a = "" then b
  else if a.data.getLast? = some '/' then a ++ b
  else a ++ "/" ++ b

/-- default_output, dispatcher.py lines 139-140: 'evaluation' when evaluation
mode is active, 'predictions.csv' otherwise. -/
def default_output (evaluate : Bool) : String :=
  if evaluate then "evaluation" else "predictions.csv"

/-- DEFAULT_OUTPUT of the cluster subcommand, cluster/dispatcher.py line 46. -/
def DEFAULT_OUTPUT : String := "centroids.csv"

/-- The non-resume predictions-path resolution of main_dispatcher,
dispatcher.py lines 158-166: the output directory defaults to the timestamp
NOW; a missing --predictions defaults to default_output joined under it; and
a predictions path whose dirname strips to empty is joined under it. -/
def resolve_predictions (evaluate : Bool) (now : String)
    (output_dir predictions : Option String) : String :=
  let dir := output_dir.getD now
  let p :=
    match predictions with
    | none => path_join dir (default_output evaluate)
    | some q => q
  if pyStrip (dirname p) = "" then path_join dir p else p

/-- The non-resume predictions-path resolution of cluster_dispatcher,
cluster/dispatcher.py lines 77-85, with DEFAULT_OUTPUT = 'centroids.csv'. -/
def resolve_predictions_cluster (now : String)
    (output_dir predictions : Option String) : String :=
  let dir := output_dir.getD now
  let p :=
    match predictions with
    | none => path_join dir DEFAULT_OUTPUT
    | some q => q
  if pyStrip (dirname p) = "" then path_join dir p else p

/-- Claim C9: with no --predictions supplied the predictions path defaults to
a file inside the run's output directory named 'evaluation' in evaluation
mode and 'predictions.csv' otherwise ('centroids.csv' for the cluster
subcommand), and a supplied predictions path with no directory component is
placed under the output directory.  The two side conditions state that the
output directory itself is a real directory name (its join with the default
file name has a non-blank dirname), which is what the code's re-join test
checks. -/
theorem predictions_default_path (evaluate : Bool) (now dir p : String)
    (hdir : pyStrip (dirname (path_join dir (default_output evaluate))) ≠ "")
    (hdirc : pyStrip (dirname (path_join dir DEFAULT_OUTPUT)) ≠ "")
    (hp : pyStrip (dirname p) = "") :
    resolve_predictions evaluate now (some dir) none
        = path_join dir (if evaluate then "evaluation" else "predictions.csv")
    ∧ resolve_predictions_cluster now (some dir) none
        = path_join dir "centroids.csv"
    ∧ resolve_predictions evaluate now (some dir) (some p) = path_join dir p := by
  refine ⟨?_, ?_, ?_⟩
  · unfold resolve_predictions
    dsimp only [Option.getD]
    rw [if_neg hdir]
    rfl
  · unfold resolve_predictions_cluster
    dsimp only [Option.getD]
    rw [if_neg hdirc]
    rfl
  · unfold resolve_predictions
    dsimp only [Option.getD]
    rw [if_pos hp]

/-- Witness for C9 at a concrete output directory and a bare file name. -/
theorem predictions_default_path_witness :
    resolve_predictions true "NOW" (some "out") none
        = path_join "out" (if true then "evaluation" else "predictions.csv")
    ∧ resolve_predictions_cluster "NOW" (some "out") none
        = path_join "out" "centroids.csv"
    ∧ resolve_predictions true "NOW" (some "out") (some "preds.csv")
        = path_join "out" "preds.csv" :=
  predictions_default_path true "NOW" "out" "preds.csv"
    (by decide) (by decide) (by decide)

end Bigmler
